import Mathlib

/-!
Shallow embedding of the order-orchestration core of the repository:
the order data model (`app/lib/models.py`), the store helpers
(`app/lib/utils.py`), the five step handlers
(`app/functions/order_validator.py`, `inventory_service.py`,
`payment_service.py`, `order_fulfillment.py`, `notification_service.py`)
and the change-feed dispatcher (`app/functions/stream_processor.py`),
together with theorems settling the specification claims about them.

Modelling conventions:
* Python strings are `String`; a Python falsy check `if not s` on an
  optional string is `truthyStr`.
* DynamoDB reads/writes are modelled by explicit state (`InventoryState`
  as an association list keyed by `product_id`) or by injected results
  (`Except String Order` for `get_order`, `Option String` fault slots for
  `update_order_status` calls); a raised Python exception is the
  `.error`/`some` case carrying the exception message.
* Monetary amounts (Python floats used only for sums and one threshold
  comparison) are modelled as `Rat`; item quantities and stock counts
  (Python ints) are `Int`.
* Each handler's observable behaviour is a `HandlerOutcome`: the ordered
  list of `update_order_status` calls it attempted, the sublist that was
  actually persisted, the exception it re-raised (if any) and the JSON
  result it returned (if it returned).
-/

namespace Orch

/-- `OrderStatus` enum of `app/lib/models.py`. -/
inductive OrderStatus where
  | RECEIVED
  | VALIDATED
  | INVENTORY_CHECKED
  | PAYMENT_PROCESSED
  | FULFILLED
  | COMPLETED
  | FAILED
deriving DecidableEq, Repr

/-- The string value of each `OrderStatus` member (it is a `str` enum). -/
def OrderStatus.toStr : OrderStatus → String
  | .RECEIVED => "RECEIVED"
  | .VALIDATED => "VALIDATED"
  | .INVENTORY_CHECKED => "INVENTORY_CHECKED"
  | .PAYMENT_PROCESSED => "PAYMENT_PROCESSED"
  | .FULFILLED => "FULFILLED"
  | .COMPLETED => "COMPLETED"
  | .FAILED => "FAILED"

/-- `PaymentStatus` enum of `app/lib/models.py`. -/
inductive PaymentStatus where
  | PENDING
  | PROCESSING
  | COMPLETED
  | FAILED
deriving DecidableEq, Repr

/-- `OrderItem` model: `{product_id, quantity, unit_price}`. -/
structure OrderItem where
  product_id : String
  quantity : Int
  unit_price : Rat
deriving DecidableEq, Repr

/-- `CustomerInfo` model: `{customer_id, email, name}`. -/
structure CustomerInfo where
  customer_id : String
  email : String
  name : String
deriving DecidableEq, Repr

/-- `PaymentInfo` model: `{payment_method, transaction_id?, status, amount?}`. -/
structure PaymentInfo where
  payment_method : String
  transaction_id : Option String := none
  status : PaymentStatus := .PENDING
  amount : Option Rat := none
deriving DecidableEq, Repr

/-- `Order` aggregate of `app/lib/models.py` (the fields the step
handlers read; `expiration_time` is TTL bookkeeping the handlers never
touch). `shipping_address` is a `Dict[str, str]`, modelled as an
association list with first-match lookup. -/
structure Order where
  order_id : String
  customer : CustomerInfo
  items : List OrderItem
  shipping_address : List (String × String)
  status : OrderStatus := .RECEIVED
  payment : PaymentInfo
  created_at : String := ""
  updated_at : String := ""
  total_amount : Option Rat := none
  notes : Option String := none
deriving DecidableEq, Repr

/-- `Order.calculate_total`: `sum(item.quantity * item.unit_price for item in self.items)`. -/
def Order.calculate_total (o : Order) : Rat :=
  (o.items.map (fun item => (item.quantity : Rat) * item.unit_price)).sum

/-- Python truthiness of an optional string: `None` and `""` are falsy. -/
def truthyStr : Option String → Option String
  | none => none
  | some s => if s = "" then none else some s

/-- Python's `c in s` membership test for a single character, via the
string's character list (kernel-computable, unlike `String.contains`). -/
def strContainsChar (s : String) (c : Char) : Bool :=
  s.data.contains c

/-- Python's `s[-1]` on the non-empty strings it is applied to
(`order_id`, generated as a uuid and never empty in the pipeline). -/
def lastChar (s : String) : Char :=
  s.data.getLast?.getD default

/-! ## `validate_order` (`app/functions/order_validator.py`) -/

/-- The body of the `for field in required_address_fields` loop test:
`field not in order.shipping_address or not order.shipping_address[field]`. -/
def addressFieldMissing (addr : List (String × String)) (f : String) : Bool :=
  match addr.lookup f with
  | none => true
  | some v => v = ""

/-- `required_address_fields` of `validate_order`. -/
def required_address_fields : List String :=
  ["street", "city", "postal_code", "country"]

/-- `validate_order(order) -> (is_valid, validation_message)`:
the checks run in source order and the first failing one returns. -/
def validate_order (order : Order) : Bool × String :=
  if order.customer.email = "" || order.customer.name = "" then
    (false, "Customer information is incomplete")
  else
    match required_address_fields.find? (fun f => addressFieldMissing order.shipping_address f) with
    | some f => (false, "Shipping address is missing " ++ f)
    | none =>
      if order.items.isEmpty then
        (false, "Order has no items")
      else if order.payment.payment_method = "" then
        (false, "Payment method is required")
      else if !(strContainsChar order.customer.email '@') ||
          !(strContainsChar order.customer.email '.') then
        (false, "Invalid email format")
      else
        (true, "Order is valid")

/-! ## Inventory store (`app/lib/utils.py`) -/

/-- Result of `inventory_table.get_item` as observed by `check_inventory`:
the item exists (possibly without a `stock_quantity` attribute, whose
absence `item.get("stock_quantity", 0)` defaults to `0`), the item is
absent, or the read raises. -/
inductive StoreRead where
  | found (stock_quantity : Option Int)
  | notFound
  | error (msg : String)
deriving DecidableEq, Repr

/-- A snapshot of the inventory-table reads, keyed by `product_id`. -/
def InventoryReads := String → StoreRead

/-- `check_inventory(product_id, quantity)`: `True` iff the recorded
stock is at least `quantity`; a missing item, and any exception raised by
the read, yield `False`. -/
def check_inventory (read : InventoryReads) (product_id : String) (quantity : Int) : Bool :=
  match read product_id with
  | .error _ => false
  | .notFound => false
  | .found stock => quantity ≤ stock.getD 0

/-- The inventory table as mutable state for `update_inventory`:
one `(product_id, stock_quantity)` row per product (keys are unique,
it is the table's primary key). -/
abbrev InventoryState := List (String × Int)

/-- Decrement the `stock_quantity` of the row keyed `product_id` by
`quantity` (the `SET stock_quantity = stock_quantity - :quantity` write). -/
def decStock : InventoryState → String → Int → InventoryState
  | [], _, _ => []
  | (k, s) :: rest, product_id, quantity =>
      if k = product_id then (k, s - quantity) :: rest
      else (k, s) :: decStock rest product_id quantity

/-- Row lookup in the inventory table (the `get_item` read). -/
def stockOf : InventoryState → String → Option Int
  | [], _ => none
  | (k, s) :: rest, product_id =>
      if k = product_id then some s else stockOf rest product_id

/-- `update_inventory(product_id, quantity)`: a conditional update with
`ConditionExpression "stock_quantity >= :quantity"`. It succeeds and
decrements exactly when the row exists with `stock_quantity ≥ quantity`;
otherwise DynamoDB raises `ConditionalCheckFailedException`, which the
function catches and turns into `False`, leaving the table unchanged. -/
def update_inventory (inv : InventoryState) (product_id : String) (quantity : Int) :
    Bool × InventoryState :=
  match stockOf inv product_id with
  | some s =>
      if quantity ≤ s then (true, decStock inv product_id quantity)
      else (false, inv)
  | none => (false, inv)

/-! ## `fulfill_order` (`app/functions/order_fulfillment.py`) -/

/-- One entry of the `inventory_updates` list built by `fulfill_order`. -/
structure ItemUpdate where
  product_id : String
  quantity : Int
  success : Bool
deriving DecidableEq, Repr

/-- The dictionary returned by `fulfill_order`. -/
structure FulfillResult where
  success : Bool
  tracking_id : Option String := none
  error : Option String := none
  inventory_updates : List ItemUpdate
deriving DecidableEq, Repr

/-- The `for item in order.items` loop of `fulfill_order`: attempt the
conditional decrement for every item in order, threading the table state,
and record each attempt's outcome. -/
def runInventoryUpdates (items : List OrderItem) (inv : InventoryState) :
    List ItemUpdate × InventoryState :=
  match items with
  | [] => ([], inv)
  | item :: rest =>
      let (ok, inv') := update_inventory inv item.product_id item.quantity
      let (updates, inv'') := runInventoryUpdates rest inv'
      (⟨item.product_id, item.quantity, ok⟩ :: updates, inv'')

/-- `fulfill_order(order)`: run every decrement, then succeed with a
tracking id `TRK-<12 uppercase hex chars>` iff all succeeded, else report
the count of failed items. `trackingHex` stands for the fresh
`uuid.uuid4().hex[:12].upper()` value. No failed-path write undoes an
earlier successful decrement. -/
def fulfill_order (trackingHex : String) (order : Order) (inv : InventoryState) :
    FulfillResult × InventoryState :=
  let (inventory_updates, inv') := runInventoryUpdates order.items inv
  if inventory_updates.all (·.success) then
    ({ success := true
       tracking_id := some ("TRK-" ++ trackingHex)
       inventory_updates := inventory_updates }, inv')
  else
    let failed_updates := inventory_updates.filter (fun u => !u.success)
    ({ success := false
       error := some ("Failed to update inventory for " ++
         toString failed_updates.length ++ " item(s)")
       inventory_updates := inventory_updates }, inv')

/-! ## Step-handler embedding

Each Lambda step handler is a function of an *environment* injecting the
results of its store and external-service interactions, and of the
invocation `event`. Its observable behaviour is a `HandlerOutcome`. -/

/-- The Lambda invocation payload `{order_id}`. -/
structure Event where
  order_id : Option String := none
deriving DecidableEq, Repr

/-- One `update_order_status(order_id, status, notes)` call. -/
structure StatusWrite where
  status : OrderStatus
  note : String
deriving DecidableEq, Repr

/-- The `{"status": ..., "message": ...}` dictionary a handler returns. -/
structure StepResponse where
  status : String
  message : String
deriving DecidableEq, Repr

/-- Observable behaviour of one handler invocation: the
`update_order_status` calls it attempted (in order), the sublist of those
that did not raise and hence were persisted, the exception the handler
(re-)raised if any, and its return value if it returned. -/
structure HandlerOutcome where
  attempted : List StatusWrite
  persisted : List StatusWrite
  raised : Option String := none
  response : Option StepResponse := none
deriving DecidableEq, Repr

/-- The shared `except Exception as e:` tail of the validator, inventory,
payment and fulfillment handlers: try `update_order_status(order_id,
FAILED, note)`, swallow any error that attempt raises
(`markFailedFault`), then re-raise `e`. `prevAttempted`/`prevPersisted`
are the status writes made before the fault. -/
def markFailedAndReraise (markFailedFault : Option String)
    (prevAttempted prevPersisted : List StatusWrite)
    (note : String) (e : String) : HandlerOutcome :=
  { attempted := prevAttempted ++ [⟨.FAILED, note⟩]
    persisted := prevPersisted ++
      (match markFailedFault with
       | none => [⟨.FAILED, note⟩]
       | some _ => [])
    raised := some e }

/-- The `raise ValueError("No order_id provided in event")` outcome shared
by all five handlers when the event carries no (truthy) order id. -/
def noOrderIdOutcome : HandlerOutcome :=
  { attempted := [], persisted := [], raised := some "No order_id provided in event" }

/-! ### Validator handler (`app/functions/order_validator.py`) -/

/-- Injected interaction results for the validator handler: the
`get_order` result, whether the in-`try` `update_order_status` call
raises, and whether the `except`-clause FAILED write raises. -/
structure ValidatorEnv where
  load : Except String Order
  updateFault : Option String := none
  markFailedFault : Option String := none

/-- The validator handler body (without the logging/timing decorator,
which does not change a non-API handler's outcome beyond re-raising). -/
def validatorHandler (env : ValidatorEnv) (event : Event) : HandlerOutcome :=
  match truthyStr event.order_id with
  | none => noOrderIdOutcome
  | some _ =>
    match env.load with
    | .error e =>
        markFailedAndReraise env.markFailedFault [] [] ("Validation error: " ++ e) e
    | .ok order =>
      let (is_valid, validation_message) := validate_order order
      if is_valid then
        match env.updateFault with
        | some e =>
            markFailedAndReraise env.markFailedFault
              [⟨.VALIDATED, "Order validated successfully"⟩] []
              ("Validation error: " ++ e) e
        | none =>
            { attempted := [⟨.VALIDATED, "Order validated successfully"⟩]
              persisted := [⟨.VALIDATED, "Order validated successfully"⟩]
              response := some ⟨"success", "Order validated successfully"⟩ }
      else
        match env.updateFault with
        | some e =>
            markFailedAndReraise env.markFailedFault
              [⟨.FAILED, "Validation failed: " ++ validation_message⟩] []
              ("Validation error: " ++ e) e
        | none =>
            { attempted := [⟨.FAILED, "Validation failed: " ++ validation_message⟩]
              persisted := [⟨.FAILED, "Validation failed: " ++ validation_message⟩]
              response := some ⟨"failed", "Validation failed: " ++ validation_message⟩ }

/-! ### Inventory handler (`app/functions/inventory_service.py`) -/

/-- One entry of the `inventory_results` list built by
`check_order_inventory`. -/
structure InventoryCheckEntry where
  product_id : String
  quantity : Int
  available : Bool
deriving DecidableEq, Repr

/-- `check_order_inventory(order)`: one `check_inventory` call per item,
in item order. -/
def check_order_inventory (read : InventoryReads) (order : Order) : List InventoryCheckEntry :=
  order.items.map (fun item =>
    ⟨item.product_id, item.quantity, check_inventory read item.product_id item.quantity⟩)

/-- Injected interaction results for the inventory handler. -/
structure InventoryEnv where
  load : Except String Order
  invRead : InventoryReads
  updateFault : Option String := none
  markFailedFault : Option String := none

/-- The inventory handler body. -/
def inventoryHandler (env : InventoryEnv) (event : Event) : HandlerOutcome :=
  match truthyStr event.order_id with
  | none => noOrderIdOutcome
  | some _ =>
    match env.load with
    | .error e =>
        markFailedAndReraise env.markFailedFault [] [] ("Inventory check error: " ++ e) e
    | .ok order =>
      let inventory_results := check_order_inventory env.invRead order
      if inventory_results.all (·.available) then
        match env.updateFault with
        | some e =>
            markFailedAndReraise env.markFailedFault
              [⟨.INVENTORY_CHECKED, "All items available in inventory"⟩] []
              ("Inventory check error: " ++ e) e
        | none =>
            { attempted := [⟨.INVENTORY_CHECKED, "All items available in inventory"⟩]
              persisted := [⟨.INVENTORY_CHECKED, "All items available in inventory"⟩]
              response := some ⟨"success", "All items available in inventory"⟩ }
      else
        let unavailable_items := inventory_results.filter (fun r => !r.available)
        let note := "Inventory check failed: " ++ toString unavailable_items.length ++
          " item(s) unavailable"
        match env.updateFault with
        | some e =>
            markFailedAndReraise env.markFailedFault
              [⟨.FAILED, note⟩] [] ("Inventory check error: " ++ e) e
        | none =>
            { attempted := [⟨.FAILED, note⟩]
              persisted := [⟨.FAILED, note⟩]
              response := some ⟨"failed", "Some items are unavailable"⟩ }

/-! ### Payment handler (`app/functions/payment_service.py`) -/

/-- The dictionary returned by `process_payment`. -/
structure PaymentResult where
  success : Bool
  transaction_id : Option String := none
  error : Option String := none
  amount : Rat
deriving DecidableEq, Repr

/-- `process_payment(order)`: amount is `order.total_amount or
order.calculate_total()` (Python `or`, so a stored `0` amount is also
recomputed); the mock decision keys off the amount threshold and the last
character of `order_id`. `txId` stands for the fresh `uuid.uuid4()`. -/
def process_payment (txId : String) (order : Order) : PaymentResult :=
  let amount : Rat :=
    match order.total_amount with
    | some a => if a ≠ 0 then a else order.calculate_total
    | none => order.calculate_total
  let success : Bool :=
    if 1000 < amount then !(strContainsChar "12" (lastChar order.order_id))
    else !(strContainsChar "1" (lastChar order.order_id))
  if success then
    { success := true, transaction_id := some ("TX-" ++ txId), amount := amount }
  else
    { success := false, error := some "Payment declined by processor", amount := amount }

/-- Injected interaction results for the payment handler; `payInfoFault`
is a fault raised by the `update_payment_info` write (which touches
`payment.*`, not the order `status`, so it is not a `StatusWrite`). -/
structure PaymentEnv where
  load : Except String Order
  txId : String := ""
  payInfoFault : Option String := none
  updateFault : Option String := none
  markFailedFault : Option String := none

/-- The payment handler body. -/
def paymentHandler (env : PaymentEnv) (event : Event) : HandlerOutcome :=
  match truthyStr event.order_id with
  | none => noOrderIdOutcome
  | some _ =>
    match env.load with
    | .error e =>
        markFailedAndReraise env.markFailedFault [] [] ("Payment processing error: " ++ e) e
    | .ok order =>
      let payment_result := process_payment env.txId order
      if payment_result.success then
        match env.payInfoFault with
        | some e =>
            markFailedAndReraise env.markFailedFault [] [] ("Payment processing error: " ++ e) e
        | none =>
          match env.updateFault with
          | some e =>
              markFailedAndReraise env.markFailedFault
                [⟨.PAYMENT_PROCESSED, "Payment processed successfully"⟩] []
                ("Payment processing error: " ++ e) e
          | none =>
              { attempted := [⟨.PAYMENT_PROCESSED, "Payment processed successfully"⟩]
                persisted := [⟨.PAYMENT_PROCESSED, "Payment processed successfully"⟩]
                response := some ⟨"success", "Payment processed successfully"⟩ }
      else
        let err := payment_result.error.getD ""
        match env.payInfoFault with
        | some e =>
            markFailedAndReraise env.markFailedFault [] [] ("Payment processing error: " ++ e) e
        | none =>
          match env.updateFault with
          | some e =>
              markFailedAndReraise env.markFailedFault
                [⟨.FAILED, "Payment failed: " ++ err⟩] []
                ("Payment processing error: " ++ e) e
          | none =>
              { attempted := [⟨.FAILED, "Payment failed: " ++ err⟩]
                persisted := [⟨.FAILED, "Payment failed: " ++ err⟩]
                response := some ⟨"failed", "Payment failed: " ++ err⟩ }

/-! ### Fulfillment handler (`app/functions/order_fulfillment.py`) -/

/-- Injected interaction results for the fulfillment handler; `inv` is
the inventory table the conditional decrements act on. -/
structure FulfillEnv where
  load : Except String Order
  trackingHex : String := ""
  inv : InventoryState
  updateFault : Option String := none
  markFailedFault : Option String := none

/-- The fulfillment handler body; besides the `HandlerOutcome` it yields
the final inventory table (the decrements happen before any status
write, and nothing in the handler undoes them). -/
def fulfillmentHandler (env : FulfillEnv) (event : Event) :
    HandlerOutcome × InventoryState :=
  match truthyStr event.order_id with
  | none => (noOrderIdOutcome, env.inv)
  | some _ =>
    match env.load with
    | .error e =>
        (markFailedAndReraise env.markFailedFault [] [] ("Fulfillment error: " ++ e) e,
         env.inv)
    | .ok order =>
      let (fulfillment_result, inv') := fulfill_order env.trackingHex order env.inv
      if fulfillment_result.success then
        let note := "Order fulfilled. Tracking ID: " ++ fulfillment_result.tracking_id.getD ""
        match env.updateFault with
        | some e =>
            (markFailedAndReraise env.markFailedFault
              [⟨.FULFILLED, note⟩] [] ("Fulfillment error: " ++ e) e, inv')
        | none =>
            ({ attempted := [⟨.FULFILLED, note⟩]
               persisted := [⟨.FULFILLED, note⟩]
               response := some ⟨"success", "Order fulfilled successfully"⟩ }, inv')
      else
        let err := fulfillment_result.error.getD ""
        match env.updateFault with
        | some e =>
            (markFailedAndReraise env.markFailedFault
              [⟨.FAILED, "Fulfillment failed: " ++ err⟩] []
              ("Fulfillment error: " ++ e) e, inv')
        | none =>
            ({ attempted := [⟨.FAILED, "Fulfillment failed: " ++ err⟩]
               persisted := [⟨.FAILED, "Fulfillment failed: " ++ err⟩]
               response := some ⟨"failed", "Fulfillment failed: " ++ err⟩ }, inv')

/-! ### Notification handler (`app/functions/notification_service.py`) -/

/-- Result of `send_notification`. -/
inductive SendResult where
  | success (message_id : String)
  | failure (error : String)
deriving DecidableEq, Repr

/-- `send_notification(order)`: the mock send; its internal
`try/except` converts an exception (`sendFault`) into a failure result
instead of raising. `message_id` stands for the generated
`MSG-<epoch>-<order_id suffix>` value. -/
def send_notification (sendFault : Option String) (message_id : String)
    (_order : Order) : SendResult :=
  match sendFault with
  | some e => .failure e
  | none => .success message_id

/-- Injected interaction results for the notification handler. Its
`except` clause only logs and re-raises, so there is no
`markFailedFault` slot: no FAILED write is ever attempted here. -/
structure NotifyEnv where
  load : Except String Order
  sendFault : Option String := none
  message_id : String := ""
  updateFault : Option String := none

/-- The notification handler body. -/
def notificationHandler (env : NotifyEnv) (event : Event) : HandlerOutcome :=
  match truthyStr event.order_id with
  | none => noOrderIdOutcome
  | some _ =>
    match env.load with
    | .error e => { attempted := [], persisted := [], raised := some e }
    | .ok order =>
      match send_notification env.sendFault env.message_id order with
      | .success message_id =>
        let note := "Notification sent to customer: " ++ message_id
        match env.updateFault with
        | some e => { attempted := [⟨.COMPLETED, note⟩], persisted := [], raised := some e }
        | none =>
            { attempted := [⟨.COMPLETED, note⟩]
              persisted := [⟨.COMPLETED, note⟩]
              response := some ⟨"success", "Notification sent successfully"⟩ }
      | .failure err =>
          { attempted := [], persisted := []
            response := some ⟨"failed", "Notification failed: " ++ err⟩ }

/-- Effect of one persisted `update_order_status` call on the stored
order: it rewrites `status`, `updated_at` (to the write time `now`) and
`notes`, and touches nothing else. -/
def applyWrite (now : String) (o : Order) (w : StatusWrite) : Order :=
  { o with status := w.status, notes := some w.note, updated_at := now }

/-- Effect of a sequence of persisted status writes on the stored order. -/
def applyWrites (now : String) (o : Order) (ws : List StatusWrite) : Order :=
  ws.foldl (applyWrite now) o

/-! ## Change-feed dispatcher (`app/functions/stream_processor.py`) -/

/-- The `status_to_function` dictionary of `process_order_status`. Its
keys are `OrderStatus` members, but since `OrderStatus` is a `str` enum
the lookup works for the plain status string carried by the record. -/
def status_to_function (status : String) : Option String :=
  if status = OrderStatus.RECEIVED.toStr then some "ValidatorFunction"
  else if status = OrderStatus.VALIDATED.toStr then some "InventoryFunction"
  else if status = OrderStatus.INVENTORY_CHECKED.toStr then some "PaymentFunction"
  else if status = OrderStatus.PAYMENT_PROCESSED.toStr then some "FulfillmentFunction"
  else if status = OrderStatus.FULFILLED.toStr then some "NotificationFunction"
  else none

/-- One `lambda_client.invoke` call: target function, invocation type
(`"Event"` = asynchronous) and the `order_id` field of the JSON payload
(the payload's only key). -/
structure Invocation where
  function_name : String
  invocation_type : String
  payload_order_id : String
deriving DecidableEq, Repr

/-- The per-record result dictionary of `process_order_status`, plus the
invocation it performed (if any). -/
structure StreamResult where
  order_id : String
  status : String
  invoked : Option Invocation
  message : String
deriving DecidableEq, Repr

/-- `process_order_status(order_id, status)`: look the status up in the
fixed mapping; invoke nothing if unmapped, else asynchronously invoke
`{stack_name}-{suffix}` with payload `{"order_id": order_id}`.
`stack_name` models the environment-derived stack prefix. -/
def process_order_status (stack_name order_id status : String) : StreamResult :=
  match status_to_function status with
  | none =>
      { order_id := order_id, status := status, invoked := none
        message := "No processing required for this status" }
  | some function_suffix =>
      let function_name := stack_name ++ "-" ++ function_suffix
      { order_id := order_id, status := status
        invoked := some
          { function_name := function_name
            invocation_type := "Event"
            payload_order_id := order_id }
        message := "Successfully invoked Lambda function" }

/-- The post-mutation snapshot (`NewImage`) of a change record, after
`dynamodb_to_dict` conversion, restricted to the two keys the dispatcher
reads plus the rest of the converted dictionary (`extra`), which the
dispatcher never consults. -/
structure OrderImage where
  order_id : Option String := none
  status : Option String := none
  extra : List (String × String) := []
deriving DecidableEq, Repr

/-- One DynamoDB stream record as seen by the batch handler. -/
structure StreamRecord where
  eventName : String
  newImage : Option OrderImage := none
deriving DecidableEq, Repr

/-- The per-record body of the batch `handler` loop: `none` when the
record is skipped by one of the `continue`s (wrong event kind, no
`NewImage`, or a falsy `order_id` or `status`), otherwise the
`process_order_status` result appended to `results`. -/
def processRecord (stack_name : String) (record : StreamRecord) : Option StreamResult :=
  if record.eventName = "INSERT" ∨ record.eventName = "MODIFY" then
    match record.newImage with
    | none => none
    | some new_image =>
      match truthyStr new_image.order_id, truthyStr new_image.status with
      | some order_id, some status => some (process_order_status stack_name order_id status)
      | _, _ => none
  else none

/-- The batch return value `{"processed_count": ..., "results": ...}`. -/
structure BatchResult where
  processed_count : Nat
  results : List StreamResult
deriving DecidableEq, Repr

/-- The batch `handler` of the stream processor: process each record in
order, skipping irrelevant ones; the batch always completes. -/
def streamHandler (stack_name : String) (records : List StreamRecord) : BatchResult :=
  let results := records.filterMap (processRecord stack_name)
  { processed_count := results.length, results := results }

/-! ## The induced status transition system

`OrderStep s s'` holds when the dispatcher, reacting to a change record
whose order carries status `s`, invokes the step bound to `s`, and that
step's handler persists a status write with value `s'` — i.e. `s'` can
follow `s` in the persisted status sequence of an order under the
self-clocking pipeline. -/

/-- The fixed forward chain of the order lifecycle. -/
def chainNext : OrderStatus → Option OrderStatus
  | .RECEIVED => some .VALIDATED
  | .VALIDATED => some .INVENTORY_CHECKED
  | .INVENTORY_CHECKED => some .PAYMENT_PROCESSED
  | .PAYMENT_PROCESSED => some .FULFILLED
  | .FULFILLED => some .COMPLETED
  | .COMPLETED => none
  | .FAILED => none

/-- Position of a status along the chain (FAILED sits outside it). -/
def statusIndex : OrderStatus → Nat
  | .RECEIVED => 0
  | .VALIDATED => 1
  | .INVENTORY_CHECKED => 2
  | .PAYMENT_PROCESSED => 3
  | .FULFILLED => 4
  | .COMPLETED => 5
  | .FAILED => 6

/-- One automatic status transition: the dispatcher maps the current
status to a step function, and that step's handler (under some
environment) persists a write carrying the new status. -/
inductive OrderStep : OrderStatus → OrderStatus → Prop where
  | validate (s : OrderStatus) (env : ValidatorEnv) (event : Event) (w : StatusWrite)
      (hdispatch : status_to_function s.toStr = some "ValidatorFunction")
      (hwrite : w ∈ (validatorHandler env event).persisted) : OrderStep s w.status
  | checkInventory (s : OrderStatus) (env : InventoryEnv) (event : Event) (w : StatusWrite)
      (hdispatch : status_to_function s.toStr = some "InventoryFunction")
      (hwrite : w ∈ (inventoryHandler env event).persisted) : OrderStep s w.status
  | processPayment (s : OrderStatus) (env : PaymentEnv) (event : Event) (w : StatusWrite)
      (hdispatch : status_to_function s.toStr = some "PaymentFunction")
      (hwrite : w ∈ (paymentHandler env event).persisted) : OrderStep s w.status
  | fulfill (s : OrderStatus) (env : FulfillEnv) (event : Event) (w : StatusWrite)
      (hdispatch : status_to_function s.toStr = some "FulfillmentFunction")
      (hwrite : w ∈ (fulfillmentHandler env event).1.persisted) : OrderStep s w.status
  | notify (s : OrderStatus) (env : NotifyEnv) (event : Event) (w : StatusWrite)
      (hdispatch : status_to_function s.toStr = some "NotificationFunction")
      (hwrite : w ∈ (notificationHandler env event).persisted) : OrderStep s w.status

/-! ## Per-handler write sets -/

theorem validatorHandler_persisted_status (env : ValidatorEnv) (event : Event)
    (w : StatusWrite) (hw : w ∈ (validatorHandler env event).persisted) :
    w.status = .VALIDATED ∨ w.status = .FAILED := by
  unfold validatorHandler noOrderIdOutcome markFailedAndReraise at hw
  repeat' (first | split at hw | dsimp only at hw)
  all_goals simp_all

theorem inventoryHandler_persisted_status (env : InventoryEnv) (event : Event)
    (w : StatusWrite) (hw : w ∈ (inventoryHandler env event).persisted) :
    w.status = .INVENTORY_CHECKED ∨ w.status = .FAILED := by
  unfold inventoryHandler noOrderIdOutcome markFailedAndReraise at hw
  repeat' (first | split at hw | dsimp only at hw)
  all_goals simp_all

theorem paymentHandler_persisted_status (env : PaymentEnv) (event : Event)
    (w : StatusWrite) (hw : w ∈ (paymentHandler env event).persisted) :
    w.status = .PAYMENT_PROCESSED ∨ w.status = .FAILED := by
  unfold paymentHandler noOrderIdOutcome markFailedAndReraise at hw
  repeat' (first | split at hw | dsimp only at hw)
  all_goals simp_all

theorem fulfillmentHandler_persisted_status (env : FulfillEnv) (event : Event)
    (w : StatusWrite) (hw : w ∈ (fulfillmentHandler env event).1.persisted) :
    w.status = .FULFILLED ∨ w.status = .FAILED := by
  unfold fulfillmentHandler noOrderIdOutcome markFailedAndReraise at hw
  repeat' (first | split at hw | dsimp only at hw)
  all_goals simp_all

theorem notificationHandler_persisted_status (env : NotifyEnv) (event : Event)
    (w : StatusWrite) (hw : w ∈ (notificationHandler env event).persisted) :
    w.status = .COMPLETED := by
  unfold notificationHandler noOrderIdOutcome at hw
  repeat' (first | split at hw | dsimp only at hw)
  all_goals simp_all

/-- Every automatic transition is one of the five dispatcher-bound steps,
and its target is the step's success status or FAILED (for Notify, only
COMPLETED: its handler never persists FAILED). -/
theorem orderStep_cases (s s' : OrderStatus) (h : OrderStep s s') :
    (s = .RECEIVED ∧ (s' = .VALIDATED ∨ s' = .FAILED)) ∨
    (s = .VALIDATED ∧ (s' = .INVENTORY_CHECKED ∨ s' = .FAILED)) ∨
    (s = .INVENTORY_CHECKED ∧ (s' = .PAYMENT_PROCESSED ∨ s' = .FAILED)) ∨
    (s = .PAYMENT_PROCESSED ∧ (s' = .FULFILLED ∨ s' = .FAILED)) ∨
    (s = .FULFILLED ∧ s' = .COMPLETED) := by
  cases h with
  | validate env event w hd hw =>
      have hs : s = .RECEIVED := by
        cases s <;> first | rfl | exact absurd hd (by decide)
      exact Or.inl ⟨hs, validatorHandler_persisted_status env event w hw⟩
  | checkInventory env event w hd hw =>
      have hs : s = .VALIDATED := by
        cases s <;> first | rfl | exact absurd hd (by decide)
      exact Or.inr (Or.inl ⟨hs, inventoryHandler_persisted_status env event w hw⟩)
  | processPayment env event w hd hw =>
      have hs : s = .INVENTORY_CHECKED := by
        cases s <;> first | rfl | exact absurd hd (by decide)
      exact Or.inr (Or.inr (Or.inl ⟨hs, paymentHandler_persisted_status env event w hw⟩))
  | fulfill env event w hd hw =>
      have hs : s = .PAYMENT_PROCESSED := by
        cases s <;> first | rfl | exact absurd hd (by decide)
      exact Or.inr (Or.inr (Or.inr (Or.inl
        ⟨hs, fulfillmentHandler_persisted_status env event w hw⟩)))
  | notify env event w hd hw =>
      have hs : s = .FULFILLED := by
        cases s <;> first | rfl | exact absurd hd (by decide)
      exact Or.inr (Or.inr (Or.inr (Or.inr
        ⟨hs, notificationHandler_persisted_status env event w hw⟩)))

/-- Claim C1. **Status monotonicity.** Every automatic status transition of the
pipeline either advances one link along the fixed chain
RECEIVED→VALIDATED→INVENTORY_CHECKED→PAYMENT_PROCESSED→FULFILLED→COMPLETED
or moves to FAILED from a non-terminal status; a non-FAILED target always
has a strictly larger chain index (the status never regresses); and no
automatic transition leaves FAILED. -/
theorem status_monotonicity :
    (∀ s s' : OrderStatus, OrderStep s s' →
        chainNext s = some s' ∨ (s' = .FAILED ∧ s ≠ .COMPLETED ∧ s ≠ .FAILED)) ∧
    (∀ s s' : OrderStatus, OrderStep s s' → s' ≠ .FAILED → statusIndex s < statusIndex s') ∧
    (∀ s' : OrderStatus, ¬ OrderStep .FAILED s') := by
  refine ⟨?_, ?_, ?_⟩
  · intro s s' h
    rcases orderStep_cases s s' h with ⟨hs, hs'⟩ | ⟨hs, hs'⟩ | ⟨hs, hs'⟩ | ⟨hs, hs'⟩ | ⟨hs, hs'⟩ <;>
      subst hs <;> first
      | (rcases hs' with hs' | hs' <;> subst hs' <;> simp [chainNext])
      | (subst hs'; simp [chainNext])
  · intro s s' h hne
    rcases orderStep_cases s s' h with ⟨hs, hs'⟩ | ⟨hs, hs'⟩ | ⟨hs, hs'⟩ | ⟨hs, hs'⟩ | ⟨hs, hs'⟩ <;>
      subst hs <;> first
      | (rcases hs' with hs' | hs' <;> subst hs' <;> simp_all [statusIndex])
      | (subst hs'; simp [statusIndex])
  · intro s' h
    rcases orderStep_cases _ _ h with ⟨hs, _⟩ | ⟨hs, _⟩ | ⟨hs, _⟩ | ⟨hs, _⟩ | ⟨hs, _⟩ <;>
      exact absurd hs (by decide)

/-- A well-formed concrete order used to witness theorems. -/
def oValid : Order :=
  { order_id := "order-77"
    customer := ⟨"cust-1", "alice@example.com", "Alice"⟩
    items := [⟨"product-1", 2, 100⟩]
    shipping_address :=
      [("street", "1 Main St"), ("city", "Springfield"),
       ("postal_code", "12345"), ("country", "US")]
    payment := { payment_method := "credit_card" } }

/-- Witness for C1: the validator step, run on `oValid` with a fault-free
store, persists VALIDATED, so `OrderStep RECEIVED VALIDATED` holds and
the theorem applies to it. -/
theorem status_monotonicity_witness :
    chainNext .RECEIVED = some .VALIDATED ∨
      (OrderStatus.VALIDATED = .FAILED ∧
        OrderStatus.RECEIVED ≠ .COMPLETED ∧ OrderStatus.RECEIVED ≠ .FAILED) :=
  status_monotonicity.1 .RECEIVED .VALIDATED
    (OrderStep.validate .RECEIVED
      { load := .ok oValid } { order_id := some "order-77" }
      ⟨.VALIDATED, "Order validated successfully"⟩
      (by decide) (by decide))

/-! ## C2: dispatch mapping -/

/-- Claim C2. **Dispatch mapping.** (1) The fixed mapping binds exactly
Validate to RECEIVED, CheckInventory to VALIDATED, ProcessPayment to
INVENTORY_CHECKED, Fulfill to PAYMENT_PROCESSED, Notify to FULFILLED,
and no step to COMPLETED or FAILED. (2) `process_order_status` invokes
exactly the mapped step — asynchronously (invocation type `"Event"`)
with payload `{order_id}` — and nothing when the status is unmapped.
(3) A processed insert/modify record is dispatched purely as a function
of the snapshot's `order_id` and `status`: every other field of the
record is ignored. -/
theorem dispatch_mapping :
    (status_to_function "RECEIVED" = some "ValidatorFunction" ∧
     status_to_function "VALIDATED" = some "InventoryFunction" ∧
     status_to_function "INVENTORY_CHECKED" = some "PaymentFunction" ∧
     status_to_function "PAYMENT_PROCESSED" = some "FulfillmentFunction" ∧
     status_to_function "FULFILLED" = some "NotificationFunction" ∧
     status_to_function "COMPLETED" = none ∧
     status_to_function "FAILED" = none) ∧
    (∀ stack_name order_id status : String,
      (process_order_status stack_name order_id status).invoked =
        (status_to_function status).map
          (fun suffix =>
            { function_name := stack_name ++ "-" ++ suffix
              invocation_type := "Event"
              payload_order_id := order_id })) ∧
    (∀ stack_name : String, ∀ record : StreamRecord, ∀ img : OrderImage,
      ∀ order_id status : String,
      (record.eventName = "INSERT" ∨ record.eventName = "MODIFY") →
      record.newImage = some img →
      truthyStr img.order_id = some order_id →
      truthyStr img.status = some status →
      processRecord stack_name record =
        some (process_order_status stack_name order_id status)) := by
  refine ⟨by decide, ?_, ?_⟩
  · intro stack_name order_id status
    unfold process_order_status
    cases status_to_function status <;> simp
  · intro stack_name record img order_id status hkind himg hoid hst
    unfold processRecord
    rw [if_pos hkind, himg]
    simp only [hoid, hst]

/-- Witness for C2: a MODIFY record carrying status VALIDATED and an
unrelated extra field dispatches the CheckInventory step. -/
theorem dispatch_mapping_witness :
    processRecord "serverless-orch-api"
        { eventName := "MODIFY"
          newImage := some
            { order_id := some "order-77", status := some "VALIDATED"
              extra := [("notes", "irrelevant")] } } =
      some (process_order_status "serverless-orch-api" "order-77" "VALIDATED") :=
  dispatch_mapping.2.2 "serverless-orch-api" _ _ "order-77" "VALIDATED"
    (Or.inr rfl) rfl (by decide) (by decide)

/-! ## C9: record filtering (corrected) -/

/-- Counterexample to C9 as stated: an INSERT record whose snapshot
carries an `order_id` but no `status` is skipped by the dispatcher
(`processRecord` yields `none`), although the claim says every
insert/modify record with at least one of the two fields is processed. -/
theorem record_filtering_counterexample :
    (let r : StreamRecord :=
      { eventName := "INSERT", newImage := some { order_id := some "order-9" } }
     r.eventName = "INSERT" ∧ r.newImage.isSome ∧
       (∃ img, r.newImage = some img ∧ img.order_id.isSome) ∧
       processRecord "serverless-orch-api" r = none) := by
  refine ⟨rfl, rfl, ⟨_, rfl, rfl⟩, ?_⟩
  decide

/-- Claim C9, amended. The dispatcher processes a change record iff its
operation kind is insert or modify, it carries a post-mutation snapshot,
and the snapshot has **both** a truthy `order_id` **and** a truthy
`status`; a record missing either of the two fields is ignored. -/
theorem record_filtering_amended (stack_name : String) (record : StreamRecord) :
    (processRecord stack_name record).isSome ↔
      ((record.eventName = "INSERT" ∨ record.eventName = "MODIFY") ∧
        ∃ img order_id status, record.newImage = some img ∧
          truthyStr img.order_id = some order_id ∧
          truthyStr img.status = some status) := by
  unfold processRecord
  by_cases hkind : record.eventName = "INSERT" ∨ record.eventName = "MODIFY"
  · rw [if_pos hkind]
    cases himg : record.newImage with
    | none => simp [hkind]
    | some img =>
      cases hoid : truthyStr img.order_id with
      | none => simp [hkind, hoid]
      | some order_id =>
        cases hst : truthyStr img.status with
        | none => simp [hkind, hoid, hst]
        | some status => simp [hkind, hoid, hst]
  · rw [if_neg hkind]
    simp [hkind]

/-! ## C3: validation determinism -/

/-- No required address field is reported missing iff each of the four
fields is present and non-empty. -/
theorem addr_fields_ok_iff (addr : List (String × String)) :
    List.find? (fun f => addressFieldMissing addr f) required_address_fields = none ↔
      ∀ f ∈ required_address_fields, ∃ v, addr.lookup f = some v ∧ v ≠ "" := by
  rw [List.find?_eq_none]
  constructor
  · intro h f hf
    have hb := h f hf
    unfold addressFieldMissing at hb
    cases hl : addr.lookup f with
    | none => rw [hl] at hb; simp at hb
    | some v =>
        rw [hl] at hb
        exact ⟨v, rfl, by simpa using hb⟩
  · intro h f hf
    obtain ⟨v, hv, hne⟩ := h f hf
    unfold addressFieldMissing
    rw [hv]
    simpa using hne

/-- A non-nil list is not `isEmpty`. -/
theorem isEmpty_false_of_ne_nil {α : Type} {l : List α} (h : l ≠ []) :
    l.isEmpty = false := by
  cases l with
  | nil => exact absurd rfl h
  | cons a t => rfl

/-- Claim C3. **Validation determinism.** `validate_order` succeeds exactly on
orders with non-empty customer email and name, all four shipping-address
fields present and non-empty, a non-empty item list, a payment method,
and an email containing `@` and `.`; on success the message is
`"Order is valid"`; and each failing order is rejected at the *first*
failing check in the fixed order, with the reason naming that category. -/
theorem validate_order_spec (o : Order) :
    ((validate_order o).1 = true ↔
      ((o.customer.email ≠ "" ∧ o.customer.name ≠ "") ∧
       (∀ f ∈ required_address_fields,
          ∃ v, o.shipping_address.lookup f = some v ∧ v ≠ "") ∧
       o.items ≠ [] ∧
       o.payment.payment_method ≠ "" ∧
       strContainsChar o.customer.email '@' = true ∧
       strContainsChar o.customer.email '.' = true)) ∧
    ((validate_order o).1 = true → validate_order o = (true, "Order is valid")) ∧
    ((o.customer.email = "" ∨ o.customer.name = "") →
      validate_order o = (false, "Customer information is incomplete")) ∧
    (∀ f, o.customer.email ≠ "" → o.customer.name ≠ "" →
      List.find? (fun f => addressFieldMissing o.shipping_address f)
          required_address_fields = some f →
      validate_order o = (false, "Shipping address is missing " ++ f)) ∧
    (o.customer.email ≠ "" → o.customer.name ≠ "" →
      (∀ f ∈ required_address_fields,
        ∃ v, o.shipping_address.lookup f = some v ∧ v ≠ "") →
      o.items = [] →
      validate_order o = (false, "Order has no items")) ∧
    (o.customer.email ≠ "" → o.customer.name ≠ "" →
      (∀ f ∈ required_address_fields,
        ∃ v, o.shipping_address.lookup f = some v ∧ v ≠ "") →
      o.items ≠ [] →
      o.payment.payment_method = "" →
      validate_order o = (false, "Payment method is required")) ∧
    (o.customer.email ≠ "" → o.customer.name ≠ "" →
      (∀ f ∈ required_address_fields,
        ∃ v, o.shipping_address.lookup f = some v ∧ v ≠ "") →
      o.items ≠ [] →
      o.payment.payment_method ≠ "" →
      (strContainsChar o.customer.email '@' = false ∨
        strContainsChar o.customer.email '.' = false) →
      validate_order o = (false, "Invalid email format")) := by
  have hcust : ∀ he : o.customer.email ≠ "", ∀ hn : o.customer.name ≠ "",
      (decide (o.customer.email = "") || decide (o.customer.name = "")) = false := by
    intro he hn; simp [he, hn]
  have h3 : (o.customer.email = "" ∨ o.customer.name = "") →
      validate_order o = (false, "Customer information is incomplete") := by
    intro hA
    unfold validate_order
    split
    · rfl
    · next hcond => exact absurd (by rcases hA with h | h <;> simp [h]) hcond
  have h4 : ∀ f, o.customer.email ≠ "" → o.customer.name ≠ "" →
      List.find? (fun f => addressFieldMissing o.shipping_address f)
          required_address_fields = some f →
      validate_order o = (false, "Shipping address is missing " ++ f) := by
    intro f he hn hfind
    unfold validate_order
    rw [if_neg (by simp [hcust he hn]), hfind]
  have h5 : o.customer.email ≠ "" → o.customer.name ≠ "" →
      (∀ f ∈ required_address_fields,
        ∃ v, o.shipping_address.lookup f = some v ∧ v ≠ "") →
      o.items = [] →
      validate_order o = (false, "Order has no items") := by
    intro he hn hB hitems
    unfold validate_order
    rw [if_neg (by simp [hcust he hn]), (addr_fields_ok_iff o.shipping_address).mpr hB,
      hitems]
    rfl
  have h6 : o.customer.email ≠ "" → o.customer.name ≠ "" →
      (∀ f ∈ required_address_fields,
        ∃ v, o.shipping_address.lookup f = some v ∧ v ≠ "") →
      o.items ≠ [] → o.payment.payment_method = "" →
      validate_order o = (false, "Payment method is required") := by
    intro he hn hB hitems hpm
    unfold validate_order
    rw [if_neg (by simp [hcust he hn]), (addr_fields_ok_iff o.shipping_address).mpr hB]
    simp [isEmpty_false_of_ne_nil hitems, hpm]
  have h7 : o.customer.email ≠ "" → o.customer.name ≠ "" →
      (∀ f ∈ required_address_fields,
        ∃ v, o.shipping_address.lookup f = some v ∧ v ≠ "") →
      o.items ≠ [] → o.payment.payment_method ≠ "" →
      (strContainsChar o.customer.email '@' = false ∨
        strContainsChar o.customer.email '.' = false) →
      validate_order o = (false, "Invalid email format") := by
    intro he hn hB hitems hpm hmail
    unfold validate_order
    rw [if_neg (by simp [hcust he hn]), (addr_fields_ok_iff o.shipping_address).mpr hB]
    rcases hmail with h | h <;> simp [isEmpty_false_of_ne_nil hitems, hpm, h]
  have hok : (o.customer.email ≠ "" ∧ o.customer.name ≠ "") →
      (∀ f ∈ required_address_fields,
        ∃ v, o.shipping_address.lookup f = some v ∧ v ≠ "") →
      o.items ≠ [] → o.payment.payment_method ≠ "" →
      strContainsChar o.customer.email '@' = true →
      strContainsChar o.customer.email '.' = true →
      validate_order o = (true, "Order is valid") := by
    rintro ⟨he, hn⟩ hB hitems hpm hat hdot
    unfold validate_order
    rw [if_neg (by simp [hcust he hn]), (addr_fields_ok_iff o.shipping_address).mpr hB]
    simp [isEmpty_false_of_ne_nil hitems, hpm, hat, hdot]
  have h1 : (validate_order o).1 = true ↔
      ((o.customer.email ≠ "" ∧ o.customer.name ≠ "") ∧
       (∀ f ∈ required_address_fields,
          ∃ v, o.shipping_address.lookup f = some v ∧ v ≠ "") ∧
       o.items ≠ [] ∧ o.payment.payment_method ≠ "" ∧
       strContainsChar o.customer.email '@' = true ∧
       strContainsChar o.customer.email '.' = true) := by
    constructor
    · intro hsucc
      have hA : o.customer.email ≠ "" ∧ o.customer.name ≠ "" := by
        by_contra hcontra
        have : o.customer.email = "" ∨ o.customer.name = "" := by tauto
        rw [h3 this] at hsucc
        exact absurd hsucc (by simp)
      have hB : ∀ f ∈ required_address_fields,
          ∃ v, o.shipping_address.lookup f = some v ∧ v ≠ "" := by
        by_contra hcontra
        have : List.find? (fun f => addressFieldMissing o.shipping_address f)
            required_address_fields ≠ none := by
          intro hnone
          exact hcontra ((addr_fields_ok_iff o.shipping_address).mp hnone)
        obtain ⟨f, hf⟩ := Option.ne_none_iff_exists'.mp this
        rw [h4 f hA.1 hA.2 hf] at hsucc
        exact absurd hsucc (by simp)
      have hC : o.items ≠ [] := by
        intro hnil
        rw [h5 hA.1 hA.2 hB hnil] at hsucc
        exact absurd hsucc (by simp)
      have hD : o.payment.payment_method ≠ "" := by
        intro hpm
        rw [h6 hA.1 hA.2 hB hC hpm] at hsucc
        exact absurd hsucc (by simp)
      have hE : strContainsChar o.customer.email '@' = true ∧
          strContainsChar o.customer.email '.' = true := by
        by_contra hcontra
        have : strContainsChar o.customer.email '@' = false ∨
            strContainsChar o.customer.email '.' = false := by
          cases hat : strContainsChar o.customer.email '@' with
          | false => exact Or.inl rfl
          | true =>
            cases hdot : strContainsChar o.customer.email '.' with
            | false => exact Or.inr rfl
            | true => exact absurd ⟨hat, hdot⟩ hcontra
        rw [h7 hA.1 hA.2 hB hC hD this] at hsucc
        exact absurd hsucc (by simp)
      exact ⟨hA, hB, hC, hD, hE.1, hE.2⟩
    · rintro ⟨hA, hB, hC, hD, hat, hdot⟩
      rw [hok hA hB hC hD hat hdot]
  have h2 : (validate_order o).1 = true →
      validate_order o = (true, "Order is valid") := by
    intro hsucc
    obtain ⟨hA, hB, hC, hD, hat, hdot⟩ := h1.mp hsucc
    exact hok hA hB hC hD hat hdot
  exact ⟨h1, h2, h3, h4, h5, h6, h7⟩

/-- Witness for C3: the concrete well-formed order validates, and an
order with an empty email is rejected with the customer-category reason. -/
theorem validate_order_spec_witness :
    validate_order oValid = (true, "Order is valid") ∧
    validate_order { oValid with customer := ⟨"cust-1", "", "Alice"⟩ } =
      (false, "Customer information is incomplete") :=
  ⟨(validate_order_spec oValid).2.1 (by decide),
   (validate_order_spec _).2.2.1 (Or.inl rfl)⟩

/-! ## C5: conditional decrement -/

/-- Decrementing the looked-up row: its stock drops by exactly `q`. -/
theorem stockOf_decStock_self (inv : InventoryState) (p : String) (q s : Int)
    (h : stockOf inv p = some s) :
    stockOf (decStock inv p q) p = some (s - q) := by
  induction inv with
  | nil => simp [stockOf] at h
  | cons hd tl ih =>
    obtain ⟨k, v⟩ := hd
    by_cases hk : k = p
    · subst hk
      unfold stockOf at h
      rw [if_pos rfl] at h
      injection h with h
      subst h
      simp [decStock, stockOf]
    · unfold stockOf at h
      rw [if_neg hk] at h
      unfold decStock
      rw [if_neg hk]
      unfold stockOf
      rw [if_neg hk]
      exact ih h

/-- Decrementing one product leaves every other product's row alone. -/
theorem stockOf_decStock_other (inv : InventoryState) (p q_id : String) (q : Int)
    (hne : q_id ≠ p) :
    stockOf (decStock inv p q) q_id = stockOf inv q_id := by
  induction inv with
  | nil => rfl
  | cons hd tl ih =>
    obtain ⟨k, v⟩ := hd
    by_cases hk : k = p
    · subst hk
      unfold decStock
      rw [if_pos rfl]
      unfold stockOf
      rw [if_neg (fun h => hne h.symm), if_neg (fun h => hne h.symm)]
    · unfold decStock
      rw [if_neg hk]
      unfold stockOf
      by_cases hq : k = q_id
      · rw [if_pos hq, if_pos hq]
      · rw [if_neg hq, if_neg hq]
        exact ih

/-- Every row of the decremented table is an old row, or the decremented
row of the looked-up product. -/
theorem mem_decStock (inv : InventoryState) (p : String) (q : Int) (x : String × Int)
    (hx : x ∈ decStock inv p q) :
    x ∈ inv ∨ ∃ s, stockOf inv p = some s ∧ x = (p, s - q) := by
  induction inv with
  | nil => exact Or.inl hx
  | cons hd tl ih =>
    obtain ⟨k, v⟩ := hd
    by_cases hk : k = p
    · subst hk
      unfold decStock at hx
      rw [if_pos rfl] at hx
      rcases List.mem_cons.mp hx with h | h
      · exact Or.inr ⟨v, by simp [stockOf], by simpa using h⟩
      · exact Or.inl (List.mem_cons_of_mem _ h)
    · unfold decStock at hx
      rw [if_neg hk] at hx
      rcases List.mem_cons.mp hx with h | h
      · exact Or.inl (by simp [h])
      · rcases ih h with h' | ⟨s, hs, hxs⟩
        · exact Or.inl (List.mem_cons_of_mem _ h')
        · refine Or.inr ⟨s, ?_, hxs⟩
          unfold stockOf
          rw [if_neg hk]
          exact hs

/-- Claim C5. **Conditional decrement.** `update_inventory` succeeds iff the
product's row exists with stock at least the requested quantity; on
success that row drops by exactly the quantity and every other row is
untouched; on failure the table is unchanged; and non-negativity of
stock is preserved by every call, so stock never goes negative. -/
theorem update_inventory_spec :
    (∀ inv p q, (update_inventory inv p q).1 = true ↔
        ∃ s, stockOf inv p = some s ∧ q ≤ s) ∧
    (∀ inv p q s, stockOf inv p = some s → q ≤ s →
        update_inventory inv p q = (true, decStock inv p q) ∧
        stockOf (decStock inv p q) p = some (s - q)) ∧
    (∀ inv p q q_id, q_id ≠ p →
        stockOf (update_inventory inv p q).2 q_id = stockOf inv q_id) ∧
    (∀ inv p q, (update_inventory inv p q).1 = false →
        (update_inventory inv p q).2 = inv) ∧
    (∀ inv p q, (∀ x ∈ inv, 0 ≤ x.2) →
        ∀ x ∈ (update_inventory inv p q).2, 0 ≤ x.2) := by
  refine ⟨?_, ?_, ?_, ?_, ?_⟩
  · intro inv p q
    unfold update_inventory
    cases hs : stockOf inv p with
    | none => simp
    | some s =>
      dsimp only
      by_cases hq : q ≤ s
      · rw [if_pos hq]
        simp [hq]
      · rw [if_neg hq]
        simp [hq]
  · intro inv p q s hs hq
    unfold update_inventory
    rw [hs]
    dsimp only
    rw [if_pos hq]
    exact ⟨rfl, stockOf_decStock_self inv p q s hs⟩
  · intro inv p q q_id hne
    unfold update_inventory
    cases hs : stockOf inv p with
    | none => rfl
    | some s =>
      dsimp only
      by_cases hq : q ≤ s
      · rw [if_pos hq]
        exact stockOf_decStock_other inv p q_id q hne
      · rw [if_neg hq]
  · intro inv p q
    unfold update_inventory
    cases hs : stockOf inv p with
    | none => intro _; rfl
    | some s =>
      dsimp only
      by_cases hq : q ≤ s
      · rw [if_pos hq]; intro h; exact absurd h (by simp)
      · rw [if_neg hq]; intro _; rfl
  · intro inv p q hnn x hx
    unfold update_inventory at hx
    cases hs : stockOf inv p with
    | none => rw [hs] at hx; exact hnn x hx
    | some s =>
      rw [hs] at hx
      dsimp only at hx
      by_cases hq : q ≤ s
      · rw [if_pos hq] at hx
        dsimp only at hx
        rcases mem_decStock inv p q x hx with h | ⟨s', hs', hxs⟩
        · exact hnn x h
        · rw [hs] at hs'
          injection hs' with hss
          subst hss
          subst hxs
          simpa using Int.sub_nonneg.mpr hq
      · rw [if_neg hq] at hx
        exact hnn x hx

/-- Witness for C5: a concrete successful decrement of 3 out of 5. -/
theorem update_inventory_spec_witness :
    update_inventory [("product-1", 5)] "product-1" 3 =
        (true, decStock [("product-1", 5)] "product-1" 3) ∧
    stockOf (decStock [("product-1", 5)] "product-1" 3) "product-1" = some (5 - 3) :=
  update_inventory_spec.2.1 [("product-1", 5)] "product-1" 3 5 (by decide) (by decide)

/-! ## C4 and C10: the CheckInventory step -/

/-- `check_inventory` succeeds iff the read finds the item and its
(defaulted) stock covers the quantity. -/
theorem check_inventory_eq_true_iff (read : InventoryReads) (p : String) (q : Int) :
    check_inventory read p q = true ↔
      ∃ st : Option Int, read p = .found st ∧ q ≤ st.getD 0 := by
  unfold check_inventory
  cases h : read p <;> simp [h]

/-- All per-item checks pass iff every item of the order passes its
`check_inventory` call. -/
theorem check_order_inventory_all_iff (read : InventoryReads) (order : Order) :
    (check_order_inventory read order).all (fun r => r.available) = true ↔
      ∀ item ∈ order.items,
        check_inventory read item.product_id item.quantity = true := by
  unfold check_order_inventory
  rw [List.all_eq_true]
  constructor
  · intro h item hi
    exact h _ (List.mem_map_of_mem _ hi)
  · intro h e he
    obtain ⟨item, hi, rfl⟩ := List.mem_map.mp he
    exact h item hi

/-- Filtering a mapped list has the same length as filtering the source
by the composed predicate. -/
theorem filter_map_length {α β : Type} (f : α → β) (p : β → Bool) (l : List α) :
    ((l.map f).filter p).length = (l.filter (fun a => p (f a))).length := by
  induction l with
  | nil => rfl
  | cons a t ih => by_cases h : p (f a) <;> simp [h, ih]

/-- The CheckInventory handler on the all-available branch. -/
theorem inventoryHandler_success (env : InventoryEnv) (event : Event) (order : Order)
    (oid : String)
    (hevt : truthyStr event.order_id = some oid)
    (hload : env.load = .ok order)
    (hupd : env.updateFault = none)
    (hall : (check_order_inventory env.invRead order).all (fun r => r.available) = true) :
    inventoryHandler env event =
      { attempted := [⟨.INVENTORY_CHECKED, "All items available in inventory"⟩]
        persisted := [⟨.INVENTORY_CHECKED, "All items available in inventory"⟩]
        raised := none
        response := some ⟨"success", "All items available in inventory"⟩ } := by
  unfold inventoryHandler
  rw [hevt]
  dsimp only
  rw [hload]
  dsimp only
  rw [if_pos hall, hupd]

/-- The CheckInventory handler on the some-unavailable branch. -/
theorem inventoryHandler_failure (env : InventoryEnv) (event : Event) (order : Order)
    (oid : String)
    (hevt : truthyStr event.order_id = some oid)
    (hload : env.load = .ok order)
    (hupd : env.updateFault = none)
    (hall : (check_order_inventory env.invRead order).all (fun r => r.available) = false) :
    inventoryHandler env event =
      { attempted := [⟨.FAILED, "Inventory check failed: " ++
          toString ((check_order_inventory env.invRead order).filter
            (fun r => !r.available)).length ++ " item(s) unavailable"⟩]
        persisted := [⟨.FAILED, "Inventory check failed: " ++
          toString ((check_order_inventory env.invRead order).filter
            (fun r => !r.available)).length ++ " item(s) unavailable"⟩]
        raised := none
        response := some ⟨"failed", "Some items are unavailable"⟩ } := by
  unfold inventoryHandler
  rw [hevt]
  dsimp only
  rw [hload]
  dsimp only
  rw [if_neg (by simp [hall]), hupd]

/-- The number of unavailable entries equals the number of order items
failing their `check_inventory` call. -/
theorem unavailable_count (read : InventoryReads) (order : Order) :
    ((check_order_inventory read order).filter (fun r => !r.available)).length =
      (order.items.filter
        (fun item => !check_inventory read item.product_id item.quantity)).length := by
  unfold check_order_inventory
  exact filter_map_length _ _ _

/-- Claim C4. **Inventory conjunction.** With the order loaded and a fault-free
status update, the CheckInventory step persists INVENTORY_CHECKED iff
every item's recorded stock is at least its requested quantity (a
missing product, or an erroring read, counts as unavailable); otherwise
it persists FAILED with a note citing the number of unavailable items. -/
theorem inventory_check_spec (env : InventoryEnv) (event : Event) (order : Order)
    (oid : String)
    (hevt : truthyStr event.order_id = some oid)
    (hload : env.load = .ok order)
    (hupd : env.updateFault = none) :
    ((inventoryHandler env event).persisted =
        [⟨.INVENTORY_CHECKED, "All items available in inventory"⟩] ↔
      ∀ item ∈ order.items, ∃ st : Option Int,
        env.invRead item.product_id = .found st ∧ item.quantity ≤ st.getD 0) ∧
    (¬ (∀ item ∈ order.items, ∃ st : Option Int,
          env.invRead item.product_id = .found st ∧ item.quantity ≤ st.getD 0) →
      (inventoryHandler env event).persisted =
        [⟨.FAILED, "Inventory check failed: " ++
          toString (order.items.filter
            (fun item => !check_inventory env.invRead item.product_id item.quantity)).length
          ++ " item(s) unavailable"⟩]) := by
  have hiff : (check_order_inventory env.invRead order).all (fun r => r.available) = true ↔
      ∀ item ∈ order.items, ∃ st : Option Int,
        env.invRead item.product_id = .found st ∧ item.quantity ≤ st.getD 0 := by
    rw [check_order_inventory_all_iff]
    constructor
    · intro h item hi
      exact (check_inventory_eq_true_iff _ _ _).mp (h item hi)
    · intro h item hi
      exact (check_inventory_eq_true_iff _ _ _).mpr (h item hi)
  cases hall : (check_order_inventory env.invRead order).all (fun r => r.available) with
  | true =>
    rw [inventoryHandler_success env event order oid hevt hload hupd hall]
    constructor
    · simp only [true_iff]
      exact fun item hi => hiff.mp hall item hi
    · intro hnot
      exact absurd (hiff.mp hall) hnot
  | false =>
    rw [inventoryHandler_failure env event order oid hevt hload hupd hall]
    constructor
    · constructor
      · intro h
        injection h with h1 h2
        exact absurd (congrArg StatusWrite.status h1)
          (by decide : ¬(OrderStatus.FAILED = OrderStatus.INVENTORY_CHECKED))
      · intro h
        exact absurd (hiff.mpr h) (by simp [hall])
    · intro _
      rw [unavailable_count]

/-- Witness for C4: one item, stock 10 ≥ quantity 2, succeeds. -/
theorem inventory_check_spec_witness :
    (inventoryHandler
        { load := .ok oValid
          invRead := fun _ => .found (some 10) }
        { order_id := some "order-77" }).persisted =
      [⟨.INVENTORY_CHECKED, "All items available in inventory"⟩] :=
  (inventory_check_spec _ _ oValid "order-77" (by decide) rfl rfl).1.mpr
    (by
      intro item hi
      simp [oValid] at hi
      subst hi
      exact ⟨some 10, rfl, by decide⟩)

/-- Claim C10. **Store errors during CheckInventory are business failures.**
An erroring inventory read makes `check_inventory` return `False`
instead of propagating, so a store error during the CheckInventory step
marks the order FAILED as a business outcome (no fault is re-raised). -/
theorem inventory_error_business_failure :
    (∀ read : InventoryReads, ∀ p : String, ∀ q : Int, ∀ e : String,
      read p = .error e → check_inventory read p q = false) ∧
    (∀ env : InventoryEnv, ∀ event : Event, ∀ order : Order,
      ∀ oid e : String, ∀ item : OrderItem,
      truthyStr event.order_id = some oid → env.load = .ok order →
      env.updateFault = none → item ∈ order.items →
      env.invRead item.product_id = .error e →
      (inventoryHandler env event).raised = none ∧
      (inventoryHandler env event).persisted.map (fun w => w.status) = [.FAILED]) := by
  have hchk : ∀ read : InventoryReads, ∀ p : String, ∀ q : Int, ∀ e : String,
      read p = .error e → check_inventory read p q = false := by
    intro read p q e h
    unfold check_inventory
    rw [h]
  refine ⟨hchk, ?_⟩
  intro env event order oid e item hevt hload hupd hitem herr
  have hall : (check_order_inventory env.invRead order).all (fun r => r.available) = false := by
    rw [Bool.eq_false_iff]
    intro hall
    have := (check_order_inventory_all_iff env.invRead order).mp hall item hitem
    rw [hchk env.invRead item.product_id item.quantity e herr] at this
    exact Bool.false_ne_true this
  rw [inventoryHandler_failure env event order oid hevt hload hupd hall]
  exact ⟨rfl, rfl⟩

/-- Witness for C10: a read error on the only item yields a FAILED
business outcome with nothing re-raised. -/
theorem inventory_error_business_failure_witness :
    (inventoryHandler
        { load := .ok oValid
          invRead := fun _ => .error "socket timeout" }
        { order_id := some "order-77" }).raised = none ∧
    (inventoryHandler
        { load := .ok oValid
          invRead := fun _ => .error "socket timeout" }
        { order_id := some "order-77" }).persisted.map (fun w => w.status) =
      [.FAILED] :=
  inventory_error_business_failure.2 _ _ oValid "order-77" "socket timeout"
    ⟨"product-1", 2, 100⟩ (by decide) rfl rfl (by simp [oValid]) rfl

/-! ## C6: fulfillment -/

/-- One inventory-update attempt is recorded per order item. -/
theorem runInventoryUpdates_length (items : List OrderItem) (inv : InventoryState) :
    (runInventoryUpdates items inv).1.length = items.length := by
  induction items generalizing inv with
  | nil => rfl
  | cons item rest ih =>
    unfold runInventoryUpdates
    cases hupd : update_inventory inv item.product_id item.quantity with
    | mk ok inv' =>
      dsimp only
      cases hrun : runInventoryUpdates rest inv' with
      | mk us inv'' =>
        dsimp only
        have hlen : us.length = rest.length := by
          have h1 := congrArg Prod.fst hrun
          dsimp at h1
          rw [← h1]
          exact ih inv'
        simp [hlen]

/-- A concrete two-item order whose second item cannot be decremented. -/
def oTwoItems : Order :=
  { oValid with items := [⟨"product-1", 1, 100⟩, ⟨"product-2", 1, 100⟩] }

/-- A table with stock for the first item only. -/
def invShortStock : InventoryState := [("product-1", 5), ("product-2", 0)]

/-- On a fully successful run, the tracking id is `TRK-` plus the fresh
hex value. -/
theorem fulfill_order_tracking (hex : String) (o : Order) (inv : InventoryState) :
    (fulfill_order hex o inv).1.success = true →
    (fulfill_order hex o inv).1.tracking_id = some ("TRK-" ++ hex) := by
  unfold fulfill_order
  cases hrun : runInventoryUpdates o.items inv with
  | mk us inv2 =>
    dsimp only
    by_cases hall : us.all (fun u => u.success) = true
    · rw [if_pos hall]
      intro _
      rfl
    · rw [if_neg hall]
      intro h
      exact absurd h (by simp)

/-- On a partially failed run, the error cites the count of failed
attempts. -/
theorem fulfill_order_error_msg (hex : String) (o : Order) (inv : InventoryState) :
    (fulfill_order hex o inv).1.success = false →
    (fulfill_order hex o inv).1.error = some
      ("Failed to update inventory for " ++
        toString ((fulfill_order hex o inv).1.inventory_updates.filter
          (fun u => !u.success)).length ++ " item(s)") := by
  unfold fulfill_order
  cases hrun : runInventoryUpdates o.items inv with
  | mk us inv2 =>
    dsimp only
    by_cases hall : us.all (fun u => u.success) = true
    · rw [if_pos hall]
      intro h
      exact absurd h (by simp)
    · rw [if_neg hall]
      intro _
      rfl

/-- `fulfill_order` succeeds iff every recorded attempt succeeded. -/
theorem fulfill_order_success_iff (hex : String) (o : Order) (inv : InventoryState) :
    (fulfill_order hex o inv).1.success = true ↔
      ∀ u ∈ (fulfill_order hex o inv).1.inventory_updates, u.success = true := by
  unfold fulfill_order
  cases hrun : runInventoryUpdates o.items inv with
  | mk us inv2 =>
    dsimp only
    by_cases hall : us.all (fun u => u.success) = true
    · rw [if_pos hall]
      simpa using List.all_eq_true.mp hall
    · rw [if_neg hall]
      have : ¬ ∀ u ∈ us, u.success = true := fun h => hall (List.all_eq_true.mpr h)
      simpa using this

/-- `fulfill_order` attempts a decrement for every item of the order. -/
theorem fulfill_order_length (hex : String) (o : Order) (inv : InventoryState) :
    (fulfill_order hex o inv).1.inventory_updates.length = o.items.length := by
  unfold fulfill_order
  cases hrun : runInventoryUpdates o.items inv with
  | mk us inv2 =>
    dsimp only
    have hlen : us.length = o.items.length := by
      have h1 := congrArg Prod.fst hrun
      dsimp at h1
      rw [← h1]
      exact runInventoryUpdates_length o.items inv
    by_cases hall : us.all (fun u => u.success) = true
    · rw [if_pos hall]
      exact hlen
    · rw [if_neg hall]
      exact hlen

/-- Claim C6. **Fulfillment.** `fulfill_order` attempts a conditional decrement
for every item (one recorded attempt per item); it succeeds iff all
attempts succeeded, and then carries the generated tracking id; on
partial failure it reports the count of failed items; the handler
persists FULFILLED with the tracking id exactly on success and FAILED
with the failure note otherwise; in **both** cases the final inventory
table is the one produced by the attempts — no decrement is rolled back,
as the concrete partial-failure run shows (the successfully decremented
product stays reduced from 5 to 4 although the order FAILED). -/
theorem fulfill_spec :
    (∀ hex : String, ∀ o : Order, ∀ inv : InventoryState,
      (fulfill_order hex o inv).1.inventory_updates.length = o.items.length) ∧
    (∀ hex : String, ∀ o : Order, ∀ inv : InventoryState,
      (fulfill_order hex o inv).1.success = true ↔
        ∀ u ∈ (fulfill_order hex o inv).1.inventory_updates, u.success = true) ∧
    (∀ hex : String, ∀ o : Order, ∀ inv : InventoryState,
      (fulfill_order hex o inv).1.success = true →
        (fulfill_order hex o inv).1.tracking_id = some ("TRK-" ++ hex)) ∧
    (∀ hex : String, ∀ o : Order, ∀ inv : InventoryState,
      (fulfill_order hex o inv).1.success = false →
        (fulfill_order hex o inv).1.error = some
          ("Failed to update inventory for " ++
            toString ((fulfill_order hex o inv).1.inventory_updates.filter
              (fun u => !u.success)).length ++ " item(s)")) ∧
    (∀ env : FulfillEnv, ∀ event : Event, ∀ order : Order, ∀ oid : String,
      truthyStr event.order_id = some oid → env.load = .ok order →
      env.updateFault = none →
      (fulfillmentHandler env event).2 =
          (fulfill_order env.trackingHex order env.inv).2 ∧
      ((fulfill_order env.trackingHex order env.inv).1.success = true →
        (fulfillmentHandler env event).1.persisted =
          [⟨.FULFILLED, "Order fulfilled. Tracking ID: " ++ ("TRK-" ++ env.trackingHex)⟩]) ∧
      ((fulfill_order env.trackingHex order env.inv).1.success = false →
        (fulfillmentHandler env event).1.persisted =
          [⟨.FAILED, "Fulfillment failed: " ++
            ((fulfill_order env.trackingHex order env.inv).1.error.getD "")⟩])) ∧
    ((fulfill_order "AB12CD34EF56" oTwoItems invShortStock).1.success = false ∧
      (fulfill_order "AB12CD34EF56" oTwoItems invShortStock).2 ≠ invShortStock ∧
      stockOf (fulfill_order "AB12CD34EF56" oTwoItems invShortStock).2 "product-1" =
        some 4) := by
  refine ⟨fulfill_order_length, fulfill_order_success_iff, fulfill_order_tracking,
    fulfill_order_error_msg, ?_, by decide⟩
  intro env event order oid hevt hload hupd
  have htrack := fulfill_order_tracking env.trackingHex order env.inv
  unfold fulfillmentHandler
  rw [hevt]
  dsimp only
  rw [hload]
  dsimp only
  cases hfr : fulfill_order env.trackingHex order env.inv with
  | mk fr inv2 =>
    rw [hfr] at htrack
    dsimp only at htrack ⊢
    cases hsucc : fr.success with
    | true =>
      rw [if_pos rfl, hupd]
      refine ⟨rfl, fun _ => ?_, fun hfalse => absurd hfalse (by simp)⟩
      rw [htrack hsucc]
      rfl
    | false =>
      rw [if_neg (by simp), hupd]
      exact ⟨rfl, fun htrue => absurd htrue (by simp), fun _ => rfl⟩

/-- Witness for C6: the one-item order against stock 5 fulfills, with the
tracking id built from the injected hex. -/
theorem fulfill_spec_witness :
    (fulfill_order "AB12CD34EF56" oValid [("product-1", 5)]).1.tracking_id =
      some ("TRK-" ++ "AB12CD34EF56") :=
  fulfill_spec.2.2.1 "AB12CD34EF56" oValid [("product-1", 5)] (by decide)

/-! ## C7: notification independence -/

/-- Claim C7. **Notification independence.** When the send fails as a business
outcome, the Notify handler performs no status update at all: nothing is
attempted or persisted, so the stored order — its status (FULFILLED in
the pipeline) and every other field — is exactly unchanged, and no fault
is raised; only on send success does it persist the transition to
COMPLETED. -/
theorem notification_independence (env : NotifyEnv) (event : Event) (order : Order)
    (oid now : String)
    (hevt : truthyStr event.order_id = some oid)
    (hload : env.load = .ok order) :
    (∀ e, env.sendFault = some e →
      (notificationHandler env event).attempted = [] ∧
      (notificationHandler env event).persisted = [] ∧
      (notificationHandler env event).raised = none ∧
      applyWrites now order (notificationHandler env event).persisted = order ∧
      (applyWrites now order (notificationHandler env event).persisted).status =
        order.status ∧
      (notificationHandler env event).response =
        some ⟨"failed", "Notification failed: " ++ e⟩) ∧
    (env.sendFault = none → env.updateFault = none →
      (notificationHandler env event).persisted =
        [⟨.COMPLETED, "Notification sent to customer: " ++ env.message_id⟩] ∧
      (applyWrites now order (notificationHandler env event).persisted).status =
        .COMPLETED) := by
  constructor
  · intro e hfault
    unfold notificationHandler
    rw [hevt]
    dsimp only
    rw [hload]
    dsimp only
    unfold send_notification
    rw [hfault]
    exact ⟨rfl, rfl, rfl, rfl, rfl, rfl⟩
  · intro hfault hupd
    unfold notificationHandler
    rw [hevt]
    dsimp only
    rw [hload]
    dsimp only
    unfold send_notification
    rw [hfault]
    dsimp only
    rw [hupd]
    exact ⟨rfl, rfl⟩

/-- Witness for C7: a failed send leaves the (FULFILLED) order exactly as
it was; a successful send persists COMPLETED. -/
theorem notification_independence_witness :
    (applyWrites "2024-01-01T00:00:00"
        { oValid with status := .FULFILLED }
        (notificationHandler
          { load := .ok { oValid with status := .FULFILLED }
            sendFault := some "smtp down" }
          { order_id := some "order-77" }).persisted =
      { oValid with status := .FULFILLED }) ∧
    (notificationHandler
        { load := .ok { oValid with status := .FULFILLED }
          sendFault := some "smtp down" }
        { order_id := some "order-77" }).raised = none :=
  ⟨((notification_independence _ _ { oValid with status := .FULFILLED }
      "order-77" "2024-01-01T00:00:00" (by decide) rfl).1 "smtp down" rfl).2.2.2.1,
   ((notification_independence _ _ { oValid with status := .FULFILLED }
      "order-77" "2024-01-01T00:00:00" (by decide) rfl).1 "smtp down" rfl).2.2.1⟩

/-! ## C8: fault handling (corrected) -/

/-- Counterexample to C8 as stated: on a fault while loading the order,
the Notify handler re-raises **without** attempting to mark the order
FAILED (its `except` clause only logs and re-raises), contradicting the
claim that every step handler makes that best-effort attempt. -/
theorem fault_handling_counterexample :
    (notificationHandler { load := .error "connection reset" }
        { order_id := some "order-8" }).raised = some "connection reset" ∧
    (notificationHandler { load := .error "connection reset" }
        { order_id := some "order-8" }).attempted = [] := by
  decide

/-- Claim C8, amended. For the Validate, CheckInventory, ProcessPayment and
Fulfill handlers, a fault while loading the order, while performing the
step's secondary write, or while updating status leads to a best-effort
FAILED-marking attempt (any secondary error of that attempt is
swallowed: the re-raised fault is the original one for every value of
the secondary-write outcome) followed by re-raising the fault. The
Notify handler instead re-raises without ever attempting a FAILED write:
on a load fault it attempts no status write at all, and on a
status-update fault its only attempted write is the COMPLETED one. -/
theorem fault_handling_amended :
    (∀ env : ValidatorEnv, ∀ event : Event, ∀ oid e : String,
      truthyStr event.order_id = some oid → env.load = .error e →
      (validatorHandler env event).raised = some e ∧
      (validatorHandler env event).attempted.map (fun w => w.status) = [.FAILED]) ∧
    (∀ env : ValidatorEnv, ∀ event : Event, ∀ order : Order, ∀ oid e : String,
      truthyStr event.order_id = some oid → env.load = .ok order →
      env.updateFault = some e →
      (validatorHandler env event).raised = some e ∧
      .FAILED ∈ (validatorHandler env event).attempted.map (fun w => w.status)) ∧
    (∀ env : InventoryEnv, ∀ event : Event, ∀ oid e : String,
      truthyStr event.order_id = some oid → env.load = .error e →
      (inventoryHandler env event).raised = some e ∧
      (inventoryHandler env event).attempted.map (fun w => w.status) = [.FAILED]) ∧
    (∀ env : InventoryEnv, ∀ event : Event, ∀ order : Order, ∀ oid e : String,
      truthyStr event.order_id = some oid → env.load = .ok order →
      env.updateFault = some e →
      (inventoryHandler env event).raised = some e ∧
      .FAILED ∈ (inventoryHandler env event).attempted.map (fun w => w.status)) ∧
    (∀ env : PaymentEnv, ∀ event : Event, ∀ oid e : String,
      truthyStr event.order_id = some oid → env.load = .error e →
      (paymentHandler env event).raised = some e ∧
      (paymentHandler env event).attempted.map (fun w => w.status) = [.FAILED]) ∧
    (∀ env : PaymentEnv, ∀ event : Event, ∀ order : Order, ∀ oid e : String,
      truthyStr event.order_id = some oid → env.load = .ok order →
      env.payInfoFault = some e →
      (paymentHandler env event).raised = some e ∧
      .FAILED ∈ (paymentHandler env event).attempted.map (fun w => w.status)) ∧
    (∀ env : PaymentEnv, ∀ event : Event, ∀ order : Order, ∀ oid e : String,
      truthyStr event.order_id = some oid → env.load = .ok order →
      env.payInfoFault = none → env.updateFault = some e →
      (paymentHandler env event).raised = some e ∧
      .FAILED ∈ (paymentHandler env event).attempted.map (fun w => w.status)) ∧
    (∀ env : FulfillEnv, ∀ event : Event, ∀ oid e : String,
      truthyStr event.order_id = some oid → env.load = .error e →
      (fulfillmentHandler env event).1.raised = some e ∧
      (fulfillmentHandler env event).1.attempted.map (fun w => w.status) = [.FAILED]) ∧
    (∀ env : FulfillEnv, ∀ event : Event, ∀ order : Order, ∀ oid e : String,
      truthyStr event.order_id = some oid → env.load = .ok order →
      env.updateFault = some e →
      (fulfillmentHandler env event).1.raised = some e ∧
      .FAILED ∈ (fulfillmentHandler env event).1.attempted.map (fun w => w.status)) ∧
    (∀ env : NotifyEnv, ∀ event : Event, ∀ oid e : String,
      truthyStr event.order_id = some oid → env.load = .error e →
      (notificationHandler env event).raised = some e ∧
      (notificationHandler env event).attempted = []) ∧
    (∀ env : NotifyEnv, ∀ event : Event, ∀ order : Order, ∀ oid e : String,
      truthyStr event.order_id = some oid → env.load = .ok order →
      env.sendFault = none → env.updateFault = some e →
      (notificationHandler env event).raised = some e ∧
      (notificationHandler env event).attempted.map (fun w => w.status) =
        [.COMPLETED]) := by
  refine ⟨?_, ?_, ?_, ?_, ?_, ?_, ?_, ?_, ?_, ?_, ?_⟩
  · intro env event oid e hevt hload
    unfold validatorHandler
    rw [hevt]
    dsimp only
    rw [hload]
    exact ⟨rfl, by simp [markFailedAndReraise]⟩
  · intro env event order oid e hevt hload hupd
    unfold validatorHandler
    rw [hevt]
    dsimp only
    rw [hload]
    dsimp only
    cases hv : validate_order order with
    | mk b msg =>
      dsimp only
      cases b <;> rw [hupd] <;> exact ⟨rfl, by simp [markFailedAndReraise]⟩
  · intro env event oid e hevt hload
    unfold inventoryHandler
    rw [hevt]
    dsimp only
    rw [hload]
    exact ⟨rfl, by simp [markFailedAndReraise]⟩
  · intro env event order oid e hevt hload hupd
    unfold inventoryHandler
    rw [hevt]
    dsimp only
    rw [hload]
    dsimp only
    by_cases hall : (check_order_inventory env.invRead order).all
        (fun r => r.available) = true
    · rw [if_pos hall, hupd]
      exact ⟨rfl, by simp [markFailedAndReraise]⟩
    · rw [if_neg hall, hupd]
      exact ⟨rfl, by simp [markFailedAndReraise]⟩
  · intro env event oid e hevt hload
    unfold paymentHandler
    rw [hevt]
    dsimp only
    rw [hload]
    exact ⟨rfl, by simp [markFailedAndReraise]⟩
  · intro env event order oid e hevt hload hpay
    unfold paymentHandler
    rw [hevt]
    dsimp only
    rw [hload]
    dsimp only
    cases hpr : (process_payment env.txId order).success <;>
      · rw [hpay]
        exact ⟨rfl, by simp [markFailedAndReraise]⟩
  · intro env event order oid e hevt hload hpay hupd
    unfold paymentHandler
    rw [hevt]
    dsimp only
    rw [hload]
    dsimp only
    cases hpr : (process_payment env.txId order).success <;>
      · rw [hpay]
        dsimp only
        rw [hupd]
        exact ⟨rfl, by simp [markFailedAndReraise]⟩
  · intro env event oid e hevt hload
    unfold fulfillmentHandler
    rw [hevt]
    dsimp only
    rw [hload]
    exact ⟨rfl, by simp [markFailedAndReraise]⟩
  · intro env event order oid e hevt hload hupd
    unfold fulfillmentHandler
    rw [hevt]
    dsimp only
    rw [hload]
    dsimp only
    cases hfr : fulfill_order env.trackingHex order env.inv with
    | mk fr inv2 =>
      dsimp only
      cases hsucc : fr.success
      · rw [if_neg (by simp), hupd]
        exact ⟨rfl, by simp [markFailedAndReraise]⟩
      · rw [if_pos rfl, hupd]
        exact ⟨rfl, by simp [markFailedAndReraise]⟩
  · intro env event oid e hevt hload
    unfold notificationHandler
    rw [hevt]
    dsimp only
    rw [hload]
    exact ⟨rfl, rfl⟩
  · intro env event order oid e hevt hload hsend hupd
    unfold notificationHandler
    rw [hevt]
    dsimp only
    rw [hload]
    dsimp only
    unfold send_notification
    rw [hsend]
    dsimp only
    rw [hupd]
    exact ⟨rfl, rfl⟩

/-- Witness for the amended C8: a concrete load fault in the validator
yields a FAILED attempt and re-raises the fault. -/
theorem fault_handling_amended_witness :
    (validatorHandler { load := .error "throttled" }
        { order_id := some "order-77" }).raised = some "throttled" ∧
    (validatorHandler { load := .error "throttled" }
        { order_id := some "order-77" }).attempted.map (fun w => w.status) =
      [.FAILED] :=
  fault_handling_amended.1 { load := .error "throttled" }
    { order_id := some "order-77" } "order-77" "throttled" (by decide) rfl

end Orch
